import Mathlib

/-!
Shallow embedding of the connection-manager layer of the MaidSafe RUDP stack
(`src/maidsafe/rudp/managed_connections.cc`).  The directory state
(`connections_`, `pendings_`, `idle_transports_`, `chosen_bootstrap_contact_`)
is modelled explicitly; each handler of the source becomes a pure state
transformer.  Machine maps become association lists with unique keys, the
`std::set` of idle transports becomes a list deduplicated by transport
identity (the `tid` field stands for the `shared_ptr` address).
-/

namespace Rudp

/-- Peer identifier: the C++ `NodeId` is a fixed-width string whose
default-constructed value is invalid; we carry the payload and the validity
flag explicitly.  Equality is structural, as in the source. -/
structure NodeId where
  val : Nat
  valid : Bool
deriving DecidableEq, Repr

/-- Mirrors `NodeId::IsValid()`. -/
def NodeId.IsValid (n : NodeId) : Bool := n.valid

/-- Default-constructed `NodeId()` (invalid). -/
def NodeId.default : NodeId := { val := 0, valid := false }

/-- UDP endpoint: address and port as numbers. -/
structure Endpoint where
  addr : Nat
  port : Nat
deriving DecidableEq, Repr

/-- Mirrors `detail::IsValid(endpoint)`: nonzero port and a specified
address. -/
def Endpoint.isValid (e : Endpoint) : Bool :=
  decide (e.addr ≠ 0 ∧ e.port ≠ 0)

/-- Unspecified endpoint. -/
def Endpoint.default : Endpoint := { addr := 0, port := 0 }

/-- Mirrors `EndpointPair { local, external }` of the source (`loc` and
`ext` here, since `local` is reserved in Lean). -/
structure EndpointPair where
  loc : Endpoint
  ext : Endpoint
deriving DecidableEq, Repr

/-- Default-constructed `EndpointPair()`. -/
def EndpointPair.default : EndpointPair :=
  { loc := Endpoint.default, ext := Endpoint.default }

/-- Mirrors `Contact { id, endpoint_pair, public_key }`. -/
structure Contact where
  id : NodeId
  endpoint_pair : EndpointPair
  public_key : Nat
deriving DecidableEq, Repr

/-- Default-constructed `Contact()`, as assigned in `OnConnectionLostSlot`. -/
def Contact.default : Contact :=
  { id := NodeId.default, endpoint_pair := EndpointPair.default, public_key := 0 }

/-- Mirrors `detail::Connection::State`. -/
inductive ConnState where
  | kBootstrapping
  | kUnvalidated
  | kPermanent
  | kTemporary
deriving DecidableEq, Repr

/-- Mirrors `NatType`. -/
inductive NatType where
  | kUnknown
  | kSymmetric
  | kCone
deriving DecidableEq, Repr

/-- A transport as the manager sees it: `tid` is the `shared_ptr` identity,
the remaining fields are the observations the manager makes through the
`detail::Transport` interface (`local_endpoint()`, `external_endpoint()`,
`IsIdle()`, `IsAvailable()`, `NormalConnectionsCount()`, `GetConnection`,
`Send`). -/
structure Transport where
  tid : Nat
  local_endpoint : Endpoint
  ext_endpoint : Endpoint
  is_idle : Bool
  is_available : Bool
  normal_connections_count : Nat
  conns : List (NodeId × ConnState)
  send_accepts : List NodeId
deriving DecidableEq, Repr

/-- Mirrors `transport->GetConnection(peer_id)`: the state of the held
connection to `peer_id`, if any. -/
def Transport.GetConnection (t : Transport) (peer_id : NodeId) : Option ConnState :=
  match t.conns.find? (fun e => decide (e.1 = peer_id)) with
  | some e => some e.2
  | none => none

/-- Mirrors `ManagedConnections::PendingConnection` (the timer is elided;
claims about it are about real time). -/
structure PendingConnection where
  node_id : NodeId
  pending_transport : Transport
  connecting : Bool
deriving DecidableEq, Repr

/-- The directory state of one `ManagedConnections` object: everything the
single mutex guards, plus the process-wide NAT type and the two tunables
`Parameters::max_transports` and `detail::Transport::kMaxConnections()`. -/
structure MCState where
  this_node_id : NodeId
  chosen_bootstrap_contact : Contact
  connections : List (NodeId × Transport)
  pendings : List PendingConnection
  idle_transports : List Transport
  nat_type : NatType
  max_transports : Nat
  kMaxConnections : Nat
deriving DecidableEq, Repr

/-- Mirrors `connections_.find(peer_id)` on the association list. -/
def lookupConn : List (NodeId × Transport) → NodeId → Option Transport
  | [], _ => none
  | (q, t) :: rest, p => if q = p then some t else lookupConn rest p

/-- Mirrors `connections_.erase(peer_id)` (keys are unique in a `std::map`,
so removing every matching entry agrees with removing the one entry). -/
def eraseConn (conns : List (NodeId × Transport)) (p : NodeId) :
    List (NodeId × Transport) :=
  conns.filter (fun e => decide (e.1 ≠ p))

/-- Mirrors `connections_.insert(std::make_pair(peer_id, transport))`:
no insertion happens when the key is present; the `Bool` is the `.second`
of the returned pair. -/
def insertConn (conns : List (NodeId × Transport)) (p : NodeId) (t : Transport) :
    List (NodeId × Transport) × Bool :=
  match lookupConn conns p with
  | some _ => (conns, false)
  | none => (conns ++ [(p, t)], true)

/-- Mirrors `FindPendingTransportWithNodeId`: first pending whose `node_id`
matches. -/
def findPending : List PendingConnection → NodeId → Option PendingConnection
  | [], _ => none
  | pc :: rest, p => if pc.node_id = p then some pc else findPending rest p

/-- Mirrors `RemovePending(peer_id)`: erases the first matching pending,
as `FindPendingTransportWithNodeId` followed by `pendings_.erase(itr)` does. -/
def RemovePending : List PendingConnection → NodeId → List PendingConnection
  | [], _ => []
  | pc :: rest, p => if pc.node_id = p then rest else pc :: RemovePending rest p

/-- Number of pendings for a given peer; the directory invariant keeps this
at most 1 (spec sec. 8 property 1). -/
def countPending : List PendingConnection → NodeId → Nat
  | [], _ => 0
  | pc :: rest, p => (if pc.node_id = p then 1 else 0) + countPending rest p

/-- Mirrors `(*itr)->connecting = true` on the pending located by
`FindPendingTransportWithNodeId` (first match). -/
def setConnectingTrue : List PendingConnection → NodeId → List PendingConnection
  | [], _ => []
  | pc :: rest, p =>
    if pc.node_id = p then { pc with connecting := true } :: rest
    else pc :: setConnectingTrue rest p

/-- Membership in the idle-transport set is by `shared_ptr` identity. -/
def idleContains (idle : List Transport) (tid : Nat) : Bool :=
  idle.any (fun u => decide (u.tid = tid))

/-- Mirrors `idle_transports_.insert(transport)` (a `std::set`). -/
def insertIdle (idle : List Transport) (t : Transport) : List Transport :=
  if idleContains idle t.tid then idle else idle ++ [t]

/-- Mirrors `idle_transports_.erase(transport)`. -/
def eraseIdle (idle : List Transport) (tid : Nat) : List Transport :=
  idle.filter (fun u => decide (u.tid ≠ tid))

/-- Mirrors `ManagedConnections::UpdateIdleTransports`. -/
def UpdateIdleTransports (idle : List Transport) (t : Transport) : List Transport :=
  if t.is_idle then insertIdle idle t else eraseIdle idle t.tid

/-- Mirrors the `chosen_bootstrap_contact_` update inside `StartNewTransport`'s
`on_bootstrap` lambda on the success path (managed_connections.cc lines
184-187): the source assigns `chosen_contact` exactly when the stored contact
is already valid. -/
def onBootstrapChosenUpdate (chosen_bootstrap_contact chosen_contact : Contact) :
    Contact :=
  if chosen_bootstrap_contact.id.IsValid then chosen_contact
  else chosen_bootstrap_contact

/-- Mirrors `ManagedConnections::ShouldStartNewTransport` (lines 354-367). -/
def ShouldStartNewTransport (s : MCState) (peer_endpoint_pair : EndpointPair) :
    Bool :=
  if s.nat_type = NatType.kSymmetric ∧
      s.connections.length < s.max_transports * s.kMaxConnections then
    if peer_endpoint_pair.ext.isValid then true
    else !peer_endpoint_pair.loc.isValid
  else
    decide (s.connections.length < s.max_transports)

/-- Mirrors `ManagedConnections::ExistingConnectionAttempt` (lines 255-265):
a `const` method; when a pending for `peer_id` exists it reports `true` and
fills the out-parameter with the pending transport's endpoints. -/
def ExistingConnectionAttempt (s : MCState) (peer_id : NodeId)
    (this_endpoint_pair : EndpointPair) : Bool × EndpointPair :=
  match findPending s.pendings peer_id with
  | none => (false, this_endpoint_pair)
  | some pc =>
    (true, { loc := pc.pending_transport.local_endpoint,
             ext := pc.pending_transport.ext_endpoint })

/-- Mirrors `ManagedConnections::ExistingConnection` (lines 267-300).
The result tuple carries the C++ return value, the two out-parameters
`this_endpoint_pair` and `connection_exists` (threaded through from their
caller-side initial values), and the updated directory state. -/
def ExistingConnection (s : MCState) (peer_id : NodeId)
    (this_endpoint_pair : EndpointPair) (connection_exists : Bool) :
    Bool × EndpointPair × Bool × MCState :=
  match lookupConn s.connections peer_id with
  | none => (false, this_endpoint_pair, connection_exists, s)
  | some t =>
    match t.GetConnection peer_id with
    | none =>
      (false, this_endpoint_pair, connection_exists,
       { s with connections := eraseConn s.connections peer_id })
    | some st =>
      if st = ConnState.kBootstrapping ∨ st = ConnState.kUnvalidated then
        (true,
         { loc := t.local_endpoint, ext := t.ext_endpoint },
         false,
         if st = ConnState.kBootstrapping then
           { s with pendings := s.pendings ++
               [{ node_id := peer_id, pending_transport := t, connecting := false }] }
         else s)
      else
        (true, this_endpoint_pair, true, s)

/-- Mirrors the `while` loop of `SelectIdleTransport` (lines 304-316):
pops unavailable idle transports off the front; yields the first available
one, leaving it in the set, together with the surviving set. -/
def selectIdleLoop : List Transport → Option Transport × List Transport
  | [] => (none, [])
  | t :: rest =>
    if t.is_available then (some t, t :: rest)
    else selectIdleLoop rest

/-- Mirrors `ManagedConnections::SelectIdleTransport` (lines 302-318). -/
def SelectIdleTransport (s : MCState) (peer_id : NodeId) :
    Option EndpointPair × MCState :=
  match selectIdleLoop s.idle_transports with
  | (some t, survivors) =>
    (some { loc := t.local_endpoint, ext := t.ext_endpoint },
     { s with idle_transports := survivors,
              pendings := s.pendings ++
                [{ node_id := peer_id, pending_transport := t, connecting := false }] })
  | (none, survivors) =>
    (none, { s with idle_transports := survivors })

/-- Mirrors the scan of `ManagedConnections::GetAvailableTransport`
(lines 341-352): running minimum of `NormalConnectionsCount()`, strictly
below the running bound, first-encountered wins ties. -/
def getAvailableLoop :
    List (NodeId × Transport) → Nat → Option Transport → Option Transport
  | [], _, sel => sel
  | (_, t) :: rest, least, sel =>
    if t.normal_connections_count < least then
      getAvailableLoop rest t.normal_connections_count (some t)
    else
      getAvailableLoop rest least sel

/-- Mirrors `ManagedConnections::GetAvailableTransport`. -/
def GetAvailableTransport (s : MCState) : Option Transport :=
  getAvailableLoop s.connections s.kMaxConnections none

/-- Mirrors `ManagedConnections::SelectAnyTransport` (lines 320-339). -/
def SelectAnyTransport (s : MCState) (peer_id : NodeId) :
    Option EndpointPair × MCState :=
  match SelectIdleTransport s peer_id with
  | (some ep, s1) => (some ep, s1)
  | (none, s1) =>
    match GetAvailableTransport s1 with
    | none => (none, s1)
    | some t =>
      (some { loc := t.local_endpoint, ext := t.ext_endpoint },
       { s1 with pendings := s1.pendings ++
           [{ node_id := peer_id, pending_transport := t, connecting := false }] })

/-- Modelled from the spec: the public driver
`ManagedConnections::GetAvailableEndpoint` is not part of the given source
file (only the helpers it calls are); spec sec. 4.2 gives its algorithm:
(1) an existing pending attempt is re-reported as is; (2) an existing
connection is handled by `ExistingConnection`, reporting already-connected
(`none` here) when `connection_exists`; (3) `ShouldStartNewTransport` may
start a transport asynchronously (directory unchanged synchronously, flag
returned); (4) otherwise a transport is selected by `SelectAnyTransport`.
The result is (new state, endpoints or `none` for failure/already-connected,
started_new_transport). -/
def GetAvailableEndpoint (s : MCState) (peer_id : NodeId)
    (peer_hint : EndpointPair) : MCState × Option EndpointPair × Bool :=
  match ExistingConnectionAttempt s peer_id EndpointPair.default with
  | (true, ep) => (s, some ep, false)
  | (false, _) =>
    match ExistingConnection s peer_id EndpointPair.default false with
    | (true, ep, conn_ex, s1) =>
      if conn_ex then (s1, none, false) else (s1, some ep, false)
    | (false, _, _, s1) =>
      let started := ShouldStartNewTransport s1 peer_hint
      match SelectAnyTransport s1 peer_id with
      | (some ep, s2) => (s2, some ep, started)
      | (none, s2) => (s2, none, started)

/-- Outcome delivered to an `Add` handler, or the final `Connect` call. -/
inductive AddOutcome where
  | success
  | already_connected
  | connection_already_in_progress
  | operation_not_supported
  | connect_called (tid : Nat)
deriving DecidableEq, Repr

/-- Mirrors `ManagedConnections::DoAdd` (lines 402-460). -/
def DoAdd (s : MCState) (peer : Contact) : MCState × AddOutcome :=
  if peer.id = s.this_node_id then
    (s, AddOutcome.operation_not_supported)
  else
    match findPending s.pendings peer.id with
    | none =>
      if (lookupConn s.connections peer.id).isSome then
        (s, AddOutcome.already_connected)
      else
        (s, AddOutcome.operation_not_supported)
    | some pc =>
      if pc.connecting then
        (s, AddOutcome.connection_already_in_progress)
      else
        let s1 := { s with pendings := setConnectingTrue s.pendings peer.id }
        match pc.pending_transport.GetConnection peer.id with
        | some st =>
          if st = ConnState.kBootstrapping ∨
              (s.chosen_bootstrap_contact.id = peer.id ∧
               st = ConnState.kPermanent) then
            (s1, AddOutcome.success)
          else
            ({ s1 with pendings := RemovePending s1.pendings peer.id },
             AddOutcome.already_connected)
        | none =>
          (s1, AddOutcome.connect_called pc.pending_transport.tid)

/-- Outcome delivered to a `Send` handler; the two `not_connected`
constructors record whether the source hands the handler to a detached
`std::thread` or invokes it synchronously. -/
inductive SendOutcome where
  | operation_not_supported
  | accepted
  | not_connected_sync
  | not_connected_detached
deriving DecidableEq, Repr

/-- Mirrors the not-connected tail of `DoSend` (lines 499-507). -/
def sendFallback (s : MCState) : MCState × SendOutcome :=
  if s.connections = [] ∧ s.idle_transports = [] then
    (s, SendOutcome.not_connected_detached)
  else
    (s, SendOutcome.not_connected_sync)

/-- Mirrors `ManagedConnections::DoSend` (lines 484-508); whether the
transport accepts the send (`itr->second->Send(...)` returning true) is the
membership of `peer_id` in the transport's `send_accepts`. -/
def DoSend (s : MCState) (peer_id : NodeId) : MCState × SendOutcome :=
  if peer_id = s.this_node_id then
    (s, SendOutcome.operation_not_supported)
  else
    match lookupConn s.connections peer_id with
    | some t =>
      if peer_id ∈ t.send_accepts then (s, SendOutcome.accepted)
      else sendFallback s
    | none => sendFallback s

/-- Mirrors `ManagedConnections::OnConnectionAddedSlot` (lines 527-562,
release semantics: the `NDEBUG`-only sweep at the end is elided); the `Bool`
is the final value of the `is_duplicate_normal_connection` out-parameter. -/
def OnConnectionAddedSlot (s : MCState) (peer_id : NodeId) (transport : Transport)
    (temporary_connection : Bool) : MCState × Bool :=
  if temporary_connection then
    ({ s with idle_transports := UpdateIdleTransports s.idle_transports transport },
     false)
  else
    let s1 := { s with pendings := RemovePending s.pendings peer_id }
    match insertConn s1.connections peer_id transport with
    | (conns1, true) =>
      ({ s1 with connections := conns1,
                 idle_transports := eraseIdle s1.idle_transports transport.tid },
       false)
    | (conns1, false) =>
      ({ s1 with connections := conns1,
                 idle_transports := UpdateIdleTransports s1.idle_transports transport },
       true)

/-- Mirrors `ManagedConnections::OnConnectionLostSlot` (lines 573-602,
release semantics: `BOOST_ASSERT` is a no-op); the returned list is the
sequence of `ConnectionLost` notifications handed to the listener. -/
def OnConnectionLostSlot (s : MCState) (peer_id : NodeId) (transport : Transport)
    (temporary_connection : Bool) : MCState × List NodeId :=
  let s0 := { s with idle_transports := UpdateIdleTransports s.idle_transports transport }
  if temporary_connection then (s0, [])
  else
    let s1 := { s0 with pendings := RemovePending s0.pendings peer_id }
    match lookupConn s1.connections peer_id with
    | none => (s1, [])
    | some _ =>
      let s2 := { s1 with connections := eraseConn s1.connections peer_id }
      let s3 :=
        if peer_id = s2.chosen_bootstrap_contact.id then
          { s2 with chosen_bootstrap_contact := Contact.default }
        else s2
      (s3, [peer_id])

theorem lookupConn_eraseConn_self (l : List (NodeId × Transport)) (p : NodeId) :
    lookupConn (eraseConn l p) p = none := by
  induction l with
  | nil => rfl
  | cons e rest ih =>
    obtain ⟨q, tq⟩ := e
    by_cases h : q = p
    · simpa [eraseConn, List.filter, h] using ih
    · simpa [eraseConn, List.filter, h, lookupConn] using ih

theorem lookupConn_append_single_self (l : List (NodeId × Transport)) (p : NodeId)
    (t : Transport) (h : lookupConn l p = none) :
    lookupConn (l ++ [(p, t)]) p = some t := by
  induction l with
  | nil => simp [lookupConn]
  | cons e rest ih =>
    obtain ⟨q, tq⟩ := e
    by_cases he : q = p
    · simp [lookupConn, he] at h
    · simp only [lookupConn, he, if_false] at h
      simp only [List.cons_append, lookupConn, he, if_false]
      exact ih h

theorem findPending_none_of_count_zero (l : List PendingConnection) (p : NodeId)
    (h : countPending l p = 0) : findPending l p = none := by
  induction l with
  | nil => rfl
  | cons pc rest ih =>
    by_cases hpc : pc.node_id = p
    · simp [countPending, hpc] at h
    · simp only [countPending, hpc, if_false, Nat.zero_add] at h
      simp [findPending, hpc, ih h]

theorem countPending_RemovePending (l : List PendingConnection) (p : NodeId)
    (h : countPending l p ≤ 1) : countPending (RemovePending l p) p = 0 := by
  induction l with
  | nil => rfl
  | cons pc rest ih =>
    by_cases hpc : pc.node_id = p
    · simp only [countPending, hpc, if_true] at h
      simp only [RemovePending, hpc, if_true]
      omega
    · simp only [countPending, hpc, if_false, Nat.zero_add] at h
      simp only [RemovePending, hpc, if_false, countPending, Nat.zero_add]
      exact ih h

theorem findPending_RemovePending (l : List PendingConnection) (p : NodeId)
    (h : countPending l p ≤ 1) :
    findPending (RemovePending l p) p = none :=
  findPending_none_of_count_zero _ _ (countPending_RemovePending l p h)

theorem countPending_setConnectingTrue (l : List PendingConnection) (p : NodeId) :
    countPending (setConnectingTrue l p) p = countPending l p := by
  induction l with
  | nil => rfl
  | cons pc rest ih =>
    by_cases hpc : pc.node_id = p
    · simp [setConnectingTrue, countPending, hpc]
    · simp [setConnectingTrue, countPending, hpc, ih]

/-- Concrete valid contact used in the counterexamples and witnesses. -/
def contactA : Contact :=
  { id := { val := 3, valid := true },
    endpoint_pair := EndpointPair.default, public_key := 2 }

/-- Second concrete valid contact, distinct from `contactA`. -/
def contactB : Contact :=
  { id := { val := 7, valid := true },
    endpoint_pair := EndpointPair.default, public_key := 1 }

/-- C1: the claim says a valid `chosen_bootstrap_contact` is left unchanged
and an invalid one is set to the delivered `chosen_contact`; the source
(lines 185-186) does the reverse on both sides: with the stored contact
invalid it stays invalid instead of becoming `contactB`, and with a valid
`contactA` stored it is overwritten by `contactB` instead of being kept. -/
theorem c1_chosen_bootstrap_update_divergence :
    onBootstrapChosenUpdate Contact.default contactB = Contact.default ∧
    Contact.default ≠ contactB ∧
    onBootstrapChosenUpdate contactA contactB = contactB ∧
    contactA ≠ contactB := by
  refine ⟨rfl, by decide, rfl, by decide⟩

/-- C5: `ShouldStartNewTransport` returns true under symmetric NAT exactly
when `|connections| < max_transports * K_max` and (the peer hint's external
endpoint is valid, or else its local endpoint is invalid); under any other
NAT type exactly when `|connections| < max_transports`.  The hypothesis
`1 ≤ K_max` reflects that a transport holds at least one connection. -/
theorem c5_should_start_new_transport (s : MCState) (pep : EndpointPair)
    (hK : 1 ≤ s.kMaxConnections) :
    (s.nat_type = NatType.kSymmetric →
      (ShouldStartNewTransport s pep = true ↔
        (s.connections.length < s.max_transports * s.kMaxConnections ∧
          (pep.ext.isValid = true ∨ pep.loc.isValid = false)))) ∧
    (s.nat_type ≠ NatType.kSymmetric →
      (ShouldStartNewTransport s pep = true ↔
        s.connections.length < s.max_transports)) := by
  have hmul : s.max_transports ≤ s.max_transports * s.kMaxConnections :=
    Nat.le_mul_of_pos_right _ hK
  constructor
  · intro hsym
    by_cases hlt : s.connections.length < s.max_transports * s.kMaxConnections
    · by_cases hext : pep.ext.isValid = true
      · simp [ShouldStartNewTransport, hsym, hlt, hext]
      · simp only [Bool.not_eq_true] at hext
        simp [ShouldStartNewTransport, hsym, hlt, hext]
    · have hlen : ¬ (s.connections.length < s.max_transports) :=
        fun hlen => hlt (lt_of_lt_of_le hlen hmul)
      simp [ShouldStartNewTransport, hsym, hlt, hlen]
  · intro hsym
    simp [ShouldStartNewTransport, hsym]

/-- Concrete directory state for the C5 witness: symmetric NAT,
`max_transports = 4`, `K_max = 64`, empty directory. -/
def c5state : MCState :=
  { this_node_id := { val := 1, valid := true },
    chosen_bootstrap_contact := Contact.default,
    connections := [], pendings := [], idle_transports := [],
    nat_type := NatType.kSymmetric, max_transports := 4, kMaxConnections := 64 }

/-- Peer hint with a valid external endpoint, for the C5 witness. -/
def c5hint : EndpointPair :=
  { loc := Endpoint.default, ext := { addr := 9, port := 80 } }

/-- Witness for C5 at a concrete symmetric-NAT state. -/
theorem c5_should_start_new_transport_witness :
    1 ≤ c5state.kMaxConnections ∧
    (ShouldStartNewTransport c5state c5hint = true ↔
      (c5state.connections.length <
          c5state.max_transports * c5state.kMaxConnections ∧
        (c5hint.ext.isValid = true ∨ c5hint.loc.isValid = false))) :=
  ⟨by decide, (c5_should_start_new_transport c5state c5hint (by decide)).1 rfl⟩

/-- Concrete peer used in the C2 scenario. -/
def c2peer : NodeId := { val := 5, valid := true }

/-- Transport holding an `Unvalidated` connection to `c2peer`. -/
def c2transport : Transport :=
  { tid := 11, local_endpoint := { addr := 1, port := 1000 },
    ext_endpoint := { addr := 2, port := 2000 },
    is_idle := false, is_available := true,
    normal_connections_count := 1,
    conns := [(c2peer, ConnState.kUnvalidated)],
    send_accepts := [] }

/-- Directory whose only entry is the `Unvalidated` connection to `c2peer`,
with no pendings. -/
def c2state : MCState :=
  { this_node_id := { val := 1, valid := true },
    chosen_bootstrap_contact := Contact.default,
    connections := [(c2peer, c2transport)], pendings := [], idle_transports := [],
    nat_type := NatType.kCone, max_transports := 4, kMaxConnections := 64 }

/-- C2 counterexample: with `connections[c2peer]` in state `Unvalidated`,
`GetAvailableEndpoint` does return the transport's endpoints but leaves
`pendings` empty — no PendingConnection is materialized, contrary to the
claim (the source only adds one in the `Bootstrapping` case,
managed_connections.cc lines 290-294). -/
theorem c2_unvalidated_counterexample :
    (GetAvailableEndpoint c2state c2peer EndpointPair.default).1.pendings = [] ∧
    (GetAvailableEndpoint c2state c2peer EndpointPair.default).2.1 =
      some { loc := c2transport.local_endpoint,
             ext := c2transport.ext_endpoint } := by
  decide

/-- C2 (amended): for an entry in state `Bootstrapping` a new
PendingConnection referencing the same transport is materialized and the
transport's endpoints are returned; for `Unvalidated` the endpoints are
returned with `connection_exists = false` but no pending is created; any
other state reports already connected (`connection_exists = true`). -/
theorem c2_existing_connection_states (s : MCState) (peer_id : NodeId)
    (ep : EndpointPair) (ce : Bool) (t : Transport) (st : ConnState)
    (hlook : lookupConn s.connections peer_id = some t)
    (hst : t.GetConnection peer_id = some st) :
    (st = ConnState.kBootstrapping →
      ExistingConnection s peer_id ep ce =
        (true, { loc := t.local_endpoint, ext := t.ext_endpoint }, false,
         { s with pendings := s.pendings ++
             [{ node_id := peer_id, pending_transport := t,
                connecting := false }] })) ∧
    (st = ConnState.kUnvalidated →
      ExistingConnection s peer_id ep ce =
        (true, { loc := t.local_endpoint, ext := t.ext_endpoint }, false, s)) ∧
    (st ≠ ConnState.kBootstrapping → st ≠ ConnState.kUnvalidated →
      ExistingConnection s peer_id ep ce = (true, ep, true, s)) := by
  refine ⟨?_, ?_, ?_⟩
  · rintro rfl
    simp [ExistingConnection, hlook, hst]
  · rintro rfl
    simp [ExistingConnection, hlook, hst]
  · intro h1 h2
    simp [ExistingConnection, hlook, hst, h1, h2]

/-- Witness for the amended C2 at the concrete `Unvalidated` state. -/
theorem c2_existing_connection_states_witness :
    lookupConn c2state.connections c2peer = some c2transport ∧
    c2transport.GetConnection c2peer = some ConnState.kUnvalidated ∧
    ExistingConnection c2state c2peer EndpointPair.default false =
      (true, { loc := c2transport.local_endpoint,
               ext := c2transport.ext_endpoint }, false, c2state) :=
  ⟨by decide, by decide,
   (c2_existing_connection_states c2state c2peer EndpointPair.default false
      c2transport ConnState.kUnvalidated (by decide) (by decide)).2.1 rfl⟩

/-- C10: when `connections[peer_id]` exists but the transport no longer has
a connection to `peer_id`, `ExistingConnection` erases the stale entry,
reports `false` (no existing connection), and `GetAvailableEndpoint`
consequently falls through to transport selection on the cleaned state. -/
theorem c10_stale_connection_entry (s : MCState) (peer_id : NodeId)
    (ep : EndpointPair) (ce : Bool) (t : Transport)
    (hlook : lookupConn s.connections peer_id = some t)
    (hconn : t.GetConnection peer_id = none)
    (hnp : findPending s.pendings peer_id = none) :
    ExistingConnection s peer_id ep ce =
      (false, ep, ce, { s with connections := eraseConn s.connections peer_id }) ∧
    lookupConn (eraseConn s.connections peer_id) peer_id = none ∧
    GetAvailableEndpoint s peer_id ep =
      ((SelectAnyTransport
          { s with connections := eraseConn s.connections peer_id } peer_id).2,
       (SelectAnyTransport
          { s with connections := eraseConn s.connections peer_id } peer_id).1,
       ShouldStartNewTransport
          { s with connections := eraseConn s.connections peer_id } ep) := by
  refine ⟨?_, lookupConn_eraseConn_self s.connections peer_id, ?_⟩
  · simp [ExistingConnection, hlook, hconn]
  · simp only [GetAvailableEndpoint, ExistingConnectionAttempt, hnp,
      ExistingConnection, hlook, hconn]
    rcases hsel : SelectAnyTransport
        { s with connections := eraseConn s.connections peer_id } peer_id with ⟨o, s2⟩
    cases o <;> simp [hsel]

/-- Transport whose connection to `c2peer` has disappeared (stale map
entry), for the C10 witness. -/
def c10transport : Transport :=
  { tid := 12, local_endpoint := { addr := 1, port := 1100 },
    ext_endpoint := { addr := 2, port := 2100 },
    is_idle := false, is_available := true,
    normal_connections_count := 0,
    conns := [], send_accepts := [] }

/-- Directory with the stale entry for the C10 witness. -/
def c10state : MCState :=
  { this_node_id := { val := 1, valid := true },
    chosen_bootstrap_contact := Contact.default,
    connections := [(c2peer, c10transport)], pendings := [],
    idle_transports := [],
    nat_type := NatType.kCone, max_transports := 4, kMaxConnections := 64 }

/-- Witness for C10 at the concrete stale state. -/
theorem c10_stale_connection_entry_witness :
    lookupConn c10state.connections c2peer = some c10transport ∧
    ExistingConnection c10state c2peer EndpointPair.default false =
      (false, EndpointPair.default, false,
       { c10state with connections := eraseConn c10state.connections c2peer }) :=
  ⟨by decide,
   (c10_stale_connection_entry c10state c2peer EndpointPair.default false
      c10transport (by decide) (by decide) (by decide)).1⟩

/-- C9: `GetAvailableEndpoint` is idempotent per peer: with a pending for
`peer_id` in place it returns that pending transport's local and external
endpoints, changes no state (so no second pending appears), and a second
call returns exactly the same result. -/
theorem c9_get_available_endpoint_idempotent (s : MCState) (peer_id : NodeId)
    (hint : EndpointPair) (pc : PendingConnection)
    (hfind : findPending s.pendings peer_id = some pc) :
    GetAvailableEndpoint s peer_id hint =
      (s, some { loc := pc.pending_transport.local_endpoint,
                 ext := pc.pending_transport.ext_endpoint }, false) ∧
    GetAvailableEndpoint (GetAvailableEndpoint s peer_id hint).1 peer_id hint =
      GetAvailableEndpoint s peer_id hint := by
  have h1 : GetAvailableEndpoint s peer_id hint =
      (s, some { loc := pc.pending_transport.local_endpoint,
                 ext := pc.pending_transport.ext_endpoint }, false) := by
    simp [GetAvailableEndpoint, ExistingConnectionAttempt, hfind]
  refine ⟨h1, ?_⟩
  rw [h1]
  exact h1

/-- Pending connection reserved for `c2peer` on `c10transport`, for the C9
witness. -/
def c9pending : PendingConnection :=
  { node_id := c2peer, pending_transport := c10transport, connecting := false }

/-- Directory with one pending and nothing else, for the C9 witness. -/
def c9state : MCState :=
  { this_node_id := { val := 1, valid := true },
    chosen_bootstrap_contact := Contact.default,
    connections := [], pendings := [c9pending], idle_transports := [],
    nat_type := NatType.kCone, max_transports := 4, kMaxConnections := 64 }

/-- Witness for C9 at the concrete one-pending state. -/
theorem c9_get_available_endpoint_idempotent_witness :
    findPending c9state.pendings c2peer = some c9pending ∧
    GetAvailableEndpoint c9state c2peer EndpointPair.default =
      (c9state, some { loc := c9pending.pending_transport.local_endpoint,
                       ext := c9pending.pending_transport.ext_endpoint }, false) :=
  ⟨by decide,
   (c9_get_available_endpoint_idempotent c9state c2peer EndpointPair.default
      c9pending (by decide)).1⟩

/-- C7: `DoAdd` with no pending for `peer.id` reports `already_connected`
when a connection exists and `operation_not_supported` otherwise, and with
a pending whose `connecting` flag is already set it reports
`connection_already_in_progress`; in every such case the directory state is
left untouched (the pending stays in place). -/
theorem c7_do_add_gate (s : MCState) (peer : Contact)
    (hself : peer.id ≠ s.this_node_id) :
    (findPending s.pendings peer.id = none →
      DoAdd s peer =
        (s, if (lookupConn s.connections peer.id).isSome then
              AddOutcome.already_connected
            else AddOutcome.operation_not_supported)) ∧
    (∀ pc, findPending s.pendings peer.id = some pc → pc.connecting = true →
      DoAdd s peer = (s, AddOutcome.connection_already_in_progress)) := by
  constructor
  · intro hnone
    by_cases hc : (lookupConn s.connections peer.id).isSome <;>
      simp [DoAdd, hself, hnone, hc]
  · intro pc hpc hconn
    simp [DoAdd, hself, hpc, hconn]

/-- Witness for C7: no pending, no connection, so the handler gets
`operation_not_supported`. -/
theorem c7_do_add_gate_witness :
    contactA.id ≠ c9state.this_node_id ∧
    findPending c9state.pendings contactA.id = none ∧
    DoAdd c9state contactA =
      (c9state, if (lookupConn c9state.connections contactA.id).isSome then
                  AddOutcome.already_connected
                else AddOutcome.operation_not_supported) :=
  ⟨by decide, by decide,
   (c7_do_add_gate c9state contactA (by decide)).1 (by decide)⟩

/-- C6: `DoAdd` with a fresh pending (connecting not yet set) whose
transport already holds a connection to `peer.id` reports success when that
connection is `Bootstrapping`, or `Permanent` with `peer.id` equal to the
chosen bootstrap contact's id; for any other state it erases the pending
and reports `already_connected`. -/
theorem c6_do_add_existing_connection (s : MCState) (peer : Contact)
    (pc : PendingConnection) (st : ConnState)
    (hself : peer.id ≠ s.this_node_id)
    (hfind : findPending s.pendings peer.id = some pc)
    (hnc : pc.connecting = false)
    (hst : pc.pending_transport.GetConnection peer.id = some st)
    (hone : countPending s.pendings peer.id ≤ 1) :
    ((st = ConnState.kBootstrapping ∨
        (s.chosen_bootstrap_contact.id = peer.id ∧ st = ConnState.kPermanent)) →
      (DoAdd s peer).2 = AddOutcome.success) ∧
    (¬ (st = ConnState.kBootstrapping ∨
        (s.chosen_bootstrap_contact.id = peer.id ∧ st = ConnState.kPermanent)) →
      (DoAdd s peer).2 = AddOutcome.already_connected ∧
      findPending (DoAdd s peer).1.pendings peer.id = none) := by
  constructor
  · intro hcond
    simp [DoAdd, hself, hfind, hnc, hst, hcond]
  · intro hcond
    refine ⟨?_, ?_⟩
    · simp [DoAdd, hself, hfind, hnc, hst, hcond]
    · have hps : (DoAdd s peer).1.pendings =
          RemovePending (setConnectingTrue s.pendings peer.id) peer.id := by
        simp [DoAdd, hself, hfind, hnc, hst, hcond]
      rw [hps]
      apply findPending_RemovePending
      rw [countPending_setConnectingTrue]
      exact hone

/-- Transport holding a `Bootstrapping` connection to `c2peer`, for the C6
witness. -/
def c6transport : Transport :=
  { tid := 13, local_endpoint := { addr := 1, port := 1300 },
    ext_endpoint := { addr := 2, port := 2300 },
    is_idle := false, is_available := true,
    normal_connections_count := 0,
    conns := [(c2peer, ConnState.kBootstrapping)],
    send_accepts := [] }

/-- Pending referencing `c6transport`, for the C6 witness. -/
def c6pending : PendingConnection :=
  { node_id := c2peer, pending_transport := c6transport, connecting := false }

/-- Directory for the C6 witness. -/
def c6state : MCState :=
  { this_node_id := { val := 1, valid := true },
    chosen_bootstrap_contact := Contact.default,
    connections := [(c2peer, c6transport)], pendings := [c6pending],
    idle_transports := [],
    nat_type := NatType.kCone, max_transports := 4, kMaxConnections := 64 }

/-- Contact for `c2peer`, for the C6 witness. -/
def c6contact : Contact :=
  { id := c2peer, endpoint_pair := EndpointPair.default, public_key := 3 }

/-- Witness for C6: the bootstrapping case reports success. -/
theorem c6_do_add_existing_connection_witness :
    c6contact.id ≠ c6state.this_node_id ∧
    findPending c6state.pendings c6contact.id = some c6pending ∧
    (DoAdd c6state c6contact).2 = AddOutcome.success :=
  ⟨by decide, by decide,
   (c6_do_add_existing_connection c6state c6contact c6pending
      ConnState.kBootstrapping (by decide) (by decide) (by decide) (by decide)
      (by decide)).1 (Or.inl rfl)⟩

/-- C3: a non-temporary `OnConnectionAdded(peer_id, transport)` removes any
pending for `peer_id` and tries to insert `(peer_id, transport)` into
`connections`; on success the transport leaves `idle_transports` and
`is_duplicate` is false; when an earlier transport already holds `peer_id`,
`is_duplicate` is true, the map is unchanged and the redundant transport's
idle status is refreshed; a temporary connection only refreshes the idle
status. -/
theorem c3_on_connection_added (s : MCState) (peer_id : NodeId)
    (transport : Transport) (hone : countPending s.pendings peer_id ≤ 1) :
    (findPending (OnConnectionAddedSlot s peer_id transport false).1.pendings
        peer_id = none) ∧
    (lookupConn s.connections peer_id = none →
      OnConnectionAddedSlot s peer_id transport false =
        ({ s with pendings := RemovePending s.pendings peer_id,
                  connections := s.connections ++ [(peer_id, transport)],
                  idle_transports := eraseIdle s.idle_transports transport.tid },
         false) ∧
      lookupConn (OnConnectionAddedSlot s peer_id transport false).1.connections
          peer_id = some transport) ∧
    (∀ t0, lookupConn s.connections peer_id = some t0 →
      OnConnectionAddedSlot s peer_id transport false =
        ({ s with pendings := RemovePending s.pendings peer_id,
                  idle_transports :=
                    UpdateIdleTransports s.idle_transports transport },
         true)) ∧
    (OnConnectionAddedSlot s peer_id transport true =
      ({ s with idle_transports := UpdateIdleTransports s.idle_transports transport },
       false)) := by
  refine ⟨?_, ?_, ?_, ?_⟩
  · have hps : (OnConnectionAddedSlot s peer_id transport false).1.pendings =
        RemovePending s.pendings peer_id := by
      cases hlook : lookupConn s.connections peer_id <;>
        simp [OnConnectionAddedSlot, insertConn, hlook]
    rw [hps]
    exact findPending_RemovePending _ _ hone
  · intro hlook
    constructor
    · simp [OnConnectionAddedSlot, insertConn, hlook]
    · have hcs : (OnConnectionAddedSlot s peer_id transport false).1.connections =
          s.connections ++ [(peer_id, transport)] := by
        simp [OnConnectionAddedSlot, insertConn, hlook]
      rw [hcs]
      exact lookupConn_append_single_self _ _ _ hlook
  · intro t0 hlook
    simp [OnConnectionAddedSlot, insertConn, hlook]
  · simp [OnConnectionAddedSlot]

/-- Witness for C3: inserting a fresh peer removes its pending, records the
connection, drops the transport from the idle set, and is not a duplicate. -/
theorem c3_on_connection_added_witness :
    countPending c9state.pendings c2peer ≤ 1 ∧
    lookupConn c9state.connections c2peer = none ∧
    (OnConnectionAddedSlot c9state c2peer c6transport false =
      ({ c9state with pendings := RemovePending c9state.pendings c2peer,
                      connections := c9state.connections ++ [(c2peer, c6transport)],
                      idle_transports :=
                        eraseIdle c9state.idle_transports c6transport.tid },
       false) ∧
     lookupConn (OnConnectionAddedSlot c9state c2peer c6transport false).1.connections
        c2peer = some c6transport) :=
  ⟨by decide, by decide,
   (c3_on_connection_added c9state c2peer c6transport (by decide)).2.1 (by decide)⟩

/-- C4: a non-temporary `OnConnectionLost(peer_id, transport)` removes any
pending for `peer_id`; when `connections[peer_id]` is this very transport
the entry is erased, the chosen bootstrap contact is cleared exactly when
its id is `peer_id`, and the listener receives `ConnectionLost(peer_id)`
exactly once; a temporary loss only refreshes the transport's idle status
and changes nothing else. -/
theorem c4_on_connection_lost (s : MCState) (peer_id : NodeId)
    (transport : Transport) (hone : countPending s.pendings peer_id ≤ 1) :
    (findPending (OnConnectionLostSlot s peer_id transport false).1.pendings
        peer_id = none) ∧
    (∀ t, lookupConn s.connections peer_id = some t → t.tid = transport.tid →
      lookupConn (OnConnectionLostSlot s peer_id transport false).1.connections
          peer_id = none ∧
      (OnConnectionLostSlot s peer_id transport false).1.chosen_bootstrap_contact =
        (if peer_id = s.chosen_bootstrap_contact.id then Contact.default
         else s.chosen_bootstrap_contact) ∧
      (OnConnectionLostSlot s peer_id transport false).2 = [peer_id]) ∧
    (OnConnectionLostSlot s peer_id transport true =
      ({ s with idle_transports := UpdateIdleTransports s.idle_transports transport },
       [])) := by
  refine ⟨?_, ?_, ?_⟩
  · have hps : (OnConnectionLostSlot s peer_id transport false).1.pendings =
        RemovePending s.pendings peer_id := by
      cases hlook : lookupConn s.connections peer_id
      all_goals by_cases hch : peer_id = s.chosen_bootstrap_contact.id
      · subst hch
        simp [OnConnectionLostSlot, hlook]
      · simp [OnConnectionLostSlot, hlook, hch]
      · subst hch
        simp [OnConnectionLostSlot, hlook]
      · simp [OnConnectionLostSlot, hlook, hch]
    rw [hps]
    exact findPending_RemovePending _ _ hone
  · intro t hlook _
    refine ⟨?_, ?_, ?_⟩
    · have hcs : (OnConnectionLostSlot s peer_id transport false).1.connections =
          eraseConn s.connections peer_id := by
        by_cases hch : peer_id = s.chosen_bootstrap_contact.id
        · subst hch
          simp [OnConnectionLostSlot, hlook]
        · simp [OnConnectionLostSlot, hlook, hch]
      rw [hcs]
      exact lookupConn_eraseConn_self _ _
    · by_cases hch : peer_id = s.chosen_bootstrap_contact.id
      · subst hch
        simp [OnConnectionLostSlot, hlook]
      · simp [OnConnectionLostSlot, hlook, hch]
    · by_cases hch : peer_id = s.chosen_bootstrap_contact.id
      · subst hch
        simp [OnConnectionLostSlot, hlook]
      · simp [OnConnectionLostSlot, hlook, hch]
  · simp [OnConnectionLostSlot]

/-- Directory for the C4 witness: `c2peer` connected via `c6transport` and
also the chosen bootstrap contact. -/
def c4state : MCState :=
  { this_node_id := { val := 1, valid := true },
    chosen_bootstrap_contact := c6contact,
    connections := [(c2peer, c6transport)], pendings := [], idle_transports := [],
    nat_type := NatType.kCone, max_transports := 4, kMaxConnections := 64 }

/-- Witness for C4: losing the bootstrap peer erases the entry, clears the
chosen bootstrap contact, and notifies the listener once. -/
theorem c4_on_connection_lost_witness :
    countPending c4state.pendings c2peer ≤ 1 ∧
    lookupConn c4state.connections c2peer = some c6transport ∧
    (lookupConn (OnConnectionLostSlot c4state c2peer c6transport false).1.connections
        c2peer = none ∧
     (OnConnectionLostSlot c4state c2peer c6transport false).1.chosen_bootstrap_contact =
       (if c2peer = c4state.chosen_bootstrap_contact.id then Contact.default
        else c4state.chosen_bootstrap_contact) ∧
     (OnConnectionLostSlot c4state c2peer c6transport false).2 = [c2peer]) :=
  ⟨by decide, by decide,
   (c4_on_connection_lost c4state c2peer c6transport (by decide)).2.1
     c6transport (by decide) rfl⟩

/-- C8: `DoSend` rejects a self-send with `operation_not_supported`;
otherwise an accepted send reports no error and leaves the directory
unchanged, and when no connections entry for `peer_id` accepts the send the
handler gets `not_connected`, on a detached thread exactly when both
`connections` and `idle_transports` are empty and synchronously otherwise. -/
theorem c8_do_send (s : MCState) (peer_id : NodeId) :
    (peer_id = s.this_node_id →
      DoSend s peer_id = (s, SendOutcome.operation_not_supported)) ∧
    (peer_id ≠ s.this_node_id →
      (∀ t, lookupConn s.connections peer_id = some t →
        peer_id ∈ t.send_accepts →
          DoSend s peer_id = (s, SendOutcome.accepted)) ∧
      ((∀ t, lookupConn s.connections peer_id = some t →
          peer_id ∉ t.send_accepts) →
        DoSend s peer_id =
          (s, if s.connections = [] ∧ s.idle_transports = [] then
                SendOutcome.not_connected_detached
              else SendOutcome.not_connected_sync))) := by
  refine ⟨?_, ?_⟩
  · intro h
    simp [DoSend, h]
  · intro hself
    refine ⟨?_, ?_⟩
    · intro t hlook hmem
      simp [DoSend, hself, hlook, hmem]
    · intro hrej
      cases hlook : lookupConn s.connections peer_id with
      | none =>
        by_cases hemp : s.connections = [] ∧ s.idle_transports = [] <;>
          simp [DoSend, lookupConn, hself, hlook, sendFallback, hemp]
      | some t =>
        have hmem := hrej t hlook
        by_cases hemp : s.connections = [] ∧ s.idle_transports = [] <;>
          simp [DoSend, lookupConn, hself, hlook, hmem, sendFallback, hemp]

/-- Witness for C8: a rejected send on a nonempty directory delivers
`not_connected` synchronously. -/
theorem c8_do_send_witness :
    c2peer ≠ c2state.this_node_id ∧
    DoSend c2state c2peer =
      (c2state, if c2state.connections = [] ∧ c2state.idle_transports = [] then
                  SendOutcome.not_connected_detached
                else SendOutcome.not_connected_sync) :=
  ⟨by decide,
   ((c8_do_send c2state c2peer).2 (by decide)).2 (by
     intro t ht
     have hts : c2transport = t := by
       simpa [c2state, lookupConn] using ht
     subst hts
     decide)⟩

end Rudp
